/-
Verification of the InsideX frontend core (API client, formatters, table
sort state machine, pagination window, dashboard controller) against its
natural-language specification.

The TypeScript source is shallowly embedded: JavaScript numbers are
modelled by `JSNum` (rationals plus NaN and the infinities), nullable /
optional values by `Option`, fallible async operations by `Except`, and
host functions (date parsing, locale rendering, the network) by explicit
function parameters.
-/

import Mathlib

namespace InsideX

/-- A JavaScript number: NaN, +Infinity, -Infinity, or a finite value
(modelled as a rational; the concrete values exercised here are exactly
representable as IEEE doubles, so no rounding discrepancy arises). -/
inductive JSNum where
  | nan
  | inf
  | ninf
  | fin (q : ℚ)
  deriving DecidableEq

/-- `Math.abs`. -/
def jsAbs : JSNum → JSNum
  | .nan => .nan
  | .inf => .inf
  | .ninf => .inf
  | .fin q => .fin |q|

/-- The JavaScript comparison `x >= c` for a finite literal `c`
(`NaN >= c` is false). -/
def jsGe : JSNum → ℚ → Bool
  | .nan, _ => false
  | .inf, _ => true
  | .ninf, _ => false
  | .fin q, c => decide (c ≤ q)

/-- Division of a JavaScript number by a positive finite literal. -/
def jsDivC : JSNum → ℚ → JSNum
  | .nan, _ => .nan
  | .inf, _ => .inf
  | .ninf, _ => .ninf
  | .fin q, c => .fin (q / c)

/-- Multiplication of a JavaScript number by a positive finite literal. -/
def jsMulC : JSNum → ℚ → JSNum
  | .nan, _ => .nan
  | .inf, _ => .inf
  | .ninf, _ => .ninf
  | .fin q, c => .fin (q * c)

/-- Truthiness of a JavaScript number: `0` and `NaN` are falsy, every
other number (the infinities included) is truthy. -/
def jsTruthyNum : JSNum → Bool
  | .nan => false
  | .inf => true
  | .ninf => true
  | .fin q => decide (q ≠ 0)

/-- The JavaScript string coalescing `x || y` for an optional string
`x` (`null`/`undefined` and the empty string are falsy). -/
def jsOrString : Option String → String → String
  | none, y => y
  | some x, y => if x = "" then y else x

/-- `Math.round`: round half toward positive infinity,
`⌊x + 1/2⌋ = ⌊(2·num + den) / (2·den)⌋` on the rational's components. -/
def jsMathRound : JSNum → JSNum
  | .nan => .nan
  | .inf => .inf
  | .ninf => .ninf
  | .fin q => .fin ((Int.fdiv (2 * q.num + q.den) (2 * q.den) : ℤ) : ℚ)

/-- JavaScript number-to-string (template interpolation, React text
rendering). The embedded components only ever stringify integral values
(`Math.round` outputs and the falsy number `0`), where this agrees with
JavaScript; non-integral rationals (never reached) are printed in
fraction form. -/
def jsNumToString : JSNum → String
  | .nan => "NaN"
  | .inf => "Infinity"
  | .ninf => "-Infinity"
  | .fin q =>
      if q.den = 1 then toString q.num
      else toString q.num ++ "/" ++ toString q.den

/-- Left-pad a digit string with zeros to width `d`. -/
def padZeros (d : Nat) (s : String) : String :=
  (List.replicate (d - s.length) '0').asString ++ s

/-- `Number.prototype.toFixed(d)`: ECMAScript strips the sign (the test
`x < 0` is equivalent to `q.num < 0` since the denominator is positive),
rounds `|x| * 10^d` to the nearest integer picking the larger on ties
(half away from zero overall), computed as `⌊|x|·10^d + 1/2⌋` on the
rational's numerator/denominator by natural division, and prints `d`
fixed decimals. NaN and the infinities print their spellings. -/
def jsToFixed (d : Nat) : JSNum → String
  | .nan => "NaN"
  | .inf => "Infinity"
  | .ninf => "-Infinity"
  | .fin q =>
      let a : Nat := (2 * q.num.natAbs * 10 ^ d + q.den) / (2 * q.den)
      let sign := if q.num < 0 then "-" else ""
      if d = 0 then sign ++ Nat.repr a
      else sign ++ Nat.repr (a / 10 ^ d) ++ "." ++ padZeros d (Nat.repr (a % 10 ^ d))

/-- `formatCurrency` (api.ts). `none` covers both `null` and `undefined`
(the source checks both identically); the `isNaN` guard catches exactly
NaN, so the infinities fall through into the magnitude buckets. -/
def formatCurrency : Option JSNum → String
  | none => "N/A"
  | some .nan => "N/A"
  | some v =>
      if jsGe (jsAbs v) 1000000000 then "$" ++ jsToFixed 1 (jsDivC v 1000000000) ++ "B"
      else if jsGe (jsAbs v) 1000000 then "$" ++ jsToFixed 1 (jsDivC v 1000000) ++ "M"
      else if jsGe (jsAbs v) 1000 then "$" ++ jsToFixed 0 (jsDivC v 1000) ++ "K"
      else "$" ++ jsToFixed 0 v

/-- `formatPercent` (api.ts). -/
def formatPercent : Option JSNum → String
  | none => "N/A"
  | some .nan => "N/A"
  | some v => jsToFixed 1 (jsMulC v 100) ++ "%"

/-- `formatNumber` (api.ts). `Number.prototype.toLocaleString` is a host
function, passed in as `locale`; the source only guards null/undefined/NaN
before delegating to it. -/
def formatNumber (locale : JSNum → String) : Option JSNum → String
  | none => "N/A"
  | some .nan => "N/A"
  | some v => locale v

/-- `formatDate` (api.ts). `new Date(s)` is modelled by the host parser
`parse` (returning `none` for an Invalid Date; the empty string never
parses in JavaScript, matching the `!dateString` guard which already
catches it), and `toLocaleDateString` by `render` for valid dates; on an
Invalid Date that host call returns the string "Invalid Date". Neither
host call throws, so the source's try/catch never fires. -/
def formatDate (parse : String → Option ℤ) (render : ℤ → String) :
    Option String → String
  | none => "N/A"
  | some s =>
      if s = "" then "N/A"
      else
        match parse s with
        | none => "Invalid Date"
        | some t => render t

/-! ## API client data model (types.ts) -/

/-- `FilingInput` (types.ts). -/
structure FilingInput where
  ticker : String
  trade_date : String
  insider_role : String
  price : ℚ
  quantity : ℚ
  ownership_after : Option ℚ
  deriving DecidableEq

/-- `SignalRequest` (types.ts): either shape may be present or absent. -/
structure SignalRequest where
  ticker : Option String
  lookback_days : Option Nat
  filings : Option (List FilingInput)
  deriving DecidableEq

/-- `Signal` (types.ts); the confidence tier is one of the strings
"low"/"medium"/"high". -/
structure Signal where
  ticker : String
  score : ℚ
  confidence : String
  reasons : List String
  trade_date : Option String
  insider_name : Option String
  trade_value : Option ℚ
  expected_return : Option ℚ
  deriving DecidableEq

/-- `TopSignalsResponse` (types.ts). -/
structure TopSignalsResponse where
  generated_at : String
  window_days : Nat
  signals : List Signal
  total : Nat
  deriving DecidableEq

/-- `SignalResponse` (types.ts); the opaque metadata record is modelled
as an optional string blob. -/
structure SignalResponse where
  generated_at : String
  signals : List Signal
  metadata : Option String
  deriving DecidableEq

/-- `Trade` (types.ts). -/
structure Trade where
  id : ℤ
  trade_flag : Option String
  filing_date : Option String
  trade_date : Option String
  ticker : Option String
  company_name : Option String
  insider_name : Option String
  title : Option String
  trade_type : Option String
  price : Option ℚ
  qty : Option ℚ
  owned : Option ℚ
  delta_own : Option ℚ
  value : Option ℚ
  performance_1d : Option ℚ
  performance_1w : Option ℚ
  performance_1m : Option ℚ
  performance_6m : Option ℚ
  scraped_at : Option String
  deriving DecidableEq

/-- `TradeResponse` (types.ts). -/
structure TradeResponse where
  trades : List Trade
  total : Nat
  limit : Nat
  offset : Nat
  deriving DecidableEq

/-- `TradeQuery` (types.ts). -/
structure TradeQuery where
  ticker : Option String
  insider_name : Option String
  trade_type : Option String
  trade_flag : Option String
  date_from : Option String
  date_to : Option String
  min_value_usd : Option ℚ
  limit : Option Nat
  offset : Option Nat
  deriving DecidableEq

/-- `date_range` component of `DatabaseStats` (types.ts). -/
structure DateRange where
  min_date : String
  max_date : String
  deriving DecidableEq

/-- `DatabaseStats` (types.ts). -/
structure DatabaseStats where
  total_records : Nat
  date_range : DateRange
  unique_companies : Nat
  unique_insiders : Nat
  deriving DecidableEq

/-! ## API client error handling (api.ts) -/

/-- The response body attached to a failed HTTP response; the client only
ever reads its `detail` field, and passes the body through verbatim. -/
structure ResponseData where
  detail : Option String
  deriving DecidableEq

/-- The `response` part of an axios error (absent on network failures
and timeouts; `data` may itself be absent). -/
structure AxiosResp where
  status : Nat
  data : Option ResponseData
  deriving DecidableEq

/-- The `APIError` class (api.ts): its constructor stores the message,
optional status and optional payload, and sets `this.name = 'APIError'`. -/
structure APIError where
  name : String
  message : String
  status : Option Nat
  data : Option ResponseData
  deriving DecidableEq

/-- A JavaScript error value as seen at the API-client boundary: an
axios transport error (`axios.isAxiosError` is true exactly for these),
an `APIError` instance, or any other `Error` with a name and message. -/
inductive JSRuntimeError where
  | axios (message : String) (response : Option AxiosResp)
  | apiErr (e : APIError)
  | plain (name : String) (message : String)
  deriving DecidableEq

/-- `handleAPIError` (api.ts): axios errors become an `APIError` whose
message prefers the server-supplied `response.data.detail` (falling back
to the transport message when `detail` is absent or empty, per `||`),
carrying `response.status` and the raw `response.data` when present; any
other error becomes an `APIError` from its message alone. -/
def handleAPIError : JSRuntimeError → APIError
  | .axios message response =>
      ⟨"APIError",
        jsOrString (Option.bind (Option.bind response AxiosResp.data) ResponseData.detail) message,
        Option.map AxiosResp.status response,
        Option.bind response AxiosResp.data⟩
  | .apiErr e => ⟨"APIError", e.message, none, none⟩
  | .plain _ message => ⟨"APIError", message, none, none⟩

/-- The response interceptor (api.ts, `apiClient.interceptors.response`):
on failure it logs and re-rejects the *same* error object
(`Promise.reject(error)`), performing no transformation. -/
def responseInterceptorOnError (error : JSRuntimeError) : JSRuntimeError :=
  error

/-- An API operation (`getTrades`, `getTradeStats`, ...): it awaits the
transport, the response interceptor passes successes through and
re-rejects failures unchanged, and the operation returns
`response.data`. -/
def apiOperation {α : Type} (transport : Except JSRuntimeError α) :
    Except JSRuntimeError α :=
  match transport with
  | .ok r => .ok r
  | .error e => .error (responseInterceptorOnError e)

/-- An outbound network action of the API client. -/
inductive ClientAction where
  | post (url : String) (body : SignalRequest)
  deriving DecidableEq

/-- The network actions `scoreSignals` (api.ts) performs: it posts the
request body to `/signals/score` unconditionally — there is no local
inspection of the body before the call. -/
def scoreSignalsActions (request : SignalRequest) : List ClientAction :=
  [ClientAction.post "/signals/score" request]

/-- `scoreSignals` (api.ts) as a function of the network: the result is
whatever POSTing the body to `/signals/score` returns. -/
def scoreSignals
    (net : String → SignalRequest → Except JSRuntimeError SignalResponse)
    (request : SignalRequest) : Except JSRuntimeError SignalResponse :=
  net "/signals/score" request

/-! ## Table sort state machine (Table.tsx) -/

/-- `SortDirection` (types.ts). -/
inductive SortDirection where
  | asc
  | desc
  deriving DecidableEq

/-- `TableColumn` (types.ts); the optional cell formatter maps a raw cell
value (modelled as its string form) to a display string. -/
structure TableColumn where
  key : String
  label : String
  sortable : Option Bool
  format : Option (String → String)

/-- The table's sort state: `useState('')` and `useState('asc')`. -/
structure SortState where
  sortColumn : String
  sortDirection : SortDirection
  deriving DecidableEq

/-- The initial sort state: no active column, ascending. -/
def initialSortState : SortState :=
  ⟨"", SortDirection.asc⟩

/-- Truthiness of the optional per-column `sortable` flag: absent is
falsy. -/
def jsTruthyOptBool : Option Bool → Bool
  | none => false
  | some b => b

/-- `handleSort` (Table.tsx): a no-op unless both the table-level
`sortable` prop and the clicked column's `sortable` flag are truthy;
otherwise the new direction is descending exactly when the clicked
column is already the active one with ascending direction, the state is
updated, and `onSort(column.key, newDirection)` is emitted (returned as
the second component). -/
def handleSort (sortable : Bool) (column : TableColumn) (st : SortState) :
    SortState × Option (String × SortDirection) :=
  if !sortable || !jsTruthyOptBool column.sortable then (st, none)
  else
    let newDirection :=
      if st.sortColumn = column.key ∧ st.sortDirection = SortDirection.asc
      then SortDirection.desc else SortDirection.asc
    (⟨column.key, newDirection⟩, some (column.key, newDirection))

/-! ## Pagination window (Table.tsx, `Pagination`) -/

/-- The page-number buttons rendered by `Pagination` (Table.tsx):
`[...Array(Math.min(totalPages, 5))].map((_, i) => ...)` with
`pageNum = i + 1`, overridden to `currentPage - 2 + i` when
`totalPages > 5 && currentPage > 3`, and further to
`totalPages - 4 + i` when that exceeds `totalPages` (a per-index
clamp). -/
def paginationWindow (currentPage totalPages : Nat) : List Nat :=
  (List.range (min totalPages 5)).map fun i =>
    if totalPages > 5 && currentPage > 3 then
      let p := currentPage - 2 + i
      if p > totalPages then totalPages - 4 + i else p
    else i + 1

/-! ## SignalBadge (Badge.tsx) -/

/-- `String.prototype.toUpperCase` (character-wise upper-casing; the
confidence tiers are plain ASCII words, where this agrees with
JavaScript). -/
def jsToUpperCase (s : String) : String :=
  String.mk (s.data.map Char.toUpper)

/-- The text content of `SignalBadge` (Badge.tsx):
`{confidence.toUpperCase()}{score && ` (${Math.round(score * 100)}%)`}`.
When `score` is absent (`undefined`) the `&&` yields `undefined` and
React renders nothing; when `score` is a falsy number (0 or NaN) the
`&&` yields that number and React renders its decimal string; otherwise
the template-literal suffix is rendered. -/
def signalBadgeText (confidence : String) (score : Option JSNum) : String :=
  jsToUpperCase confidence ++
    match score with
    | none => ""
    | some s =>
        if jsTruthyNum s then
          " (" ++ jsNumToString (jsMathRound (jsMulC s 100)) ++ "%)"
        else jsNumToString s

/-! ## Dashboard controller (dashboard/page.tsx) -/

/-- `DashboardStats` (dashboard/page.tsx). -/
structure DashboardStats where
  total_trades_7d : Nat
  total_trades_30d : Nat
  buy_sell_ratio_7d : ℚ
  buy_sell_ratio_30d : ℚ
  top_signals_count : Nat
  avg_signal_score : ℚ
  deriving DecidableEq

/-- The dashboard page's React state. -/
structure DashState where
  signals : List Signal
  stats : Option DatabaseStats
  dashboardStats : Option DashboardStats
  loading : Bool
  error : Option String
  deriving DecidableEq

/-- Parameters of `getTopSignals` (api.ts). -/
structure TopSignalsParams where
  window_days : Option Nat
  limit : Option Nat
  deriving DecidableEq

/-- The backend as seen by the dashboard: the three operations it
invokes, each fallible. -/
structure ApiEnv where
  getTopSignals : TopSignalsParams → Except JSRuntimeError TopSignalsResponse
  getTradeStats : Unit → Except JSRuntimeError DatabaseStats
  getTrades : TradeQuery → Except JSRuntimeError TradeResponse

/-- The argument of the dashboard's `getTrades` call: `{ limit: 100 }`. -/
def dashboardTradesQuery : TradeQuery :=
  ⟨none, none, none, none, none, none, none, some 100, none⟩

/-- `Promise.all` over three settled results: succeeds with the triple
when all succeed, otherwise rejects with a failing member's error. -/
def promiseAll3 {ε α β γ : Type} (a : Except ε α) (b : Except ε β)
    (c : Except ε γ) : Except ε (α × β × γ) :=
  match a, b, c with
  | .ok x, .ok y, .ok z => .ok (x, y, z)
  | .error e, _, _ => .error e
  | .ok _, .error e, _ => .error e
  | .ok _, .ok _, .error e => .error e

/-- The dashboard's per-trade window test (dashboard/page.tsx):
`new Date(trade.trade_date || '')` is modelled by the host parser
(`none` = Invalid Date, whose `getTime()` is NaN, making
`daysDiff <= days` false); for a valid date the millisecond day
difference is compared against the window. -/
def tradeInWindow (parse : String → Option ℤ) (now : ℤ) (days : ℚ)
    (t : Trade) : Bool :=
  match parse (jsOrString t.trade_date "") with
  | none => false
  | some tt => decide ((((now : ℚ) - (tt : ℚ)) / (1000 * 60 * 60 * 24)) ≤ days)

/-- The client-side statistics derivation in `loadDashboardData`
(dashboard/page.tsx, lines 61-86). -/
def computeDashboardStats (parse : String → Option ℤ) (now : ℤ)
    (signalsResponse : TopSignalsResponse) (recentTrades : TradeResponse) :
    DashboardStats :=
  let trades7d := recentTrades.trades.filter (tradeInWindow parse now 7)
  let trades30d := recentTrades.trades.filter (tradeInWindow parse now 30)
  let buys7d := (trades7d.filter fun t => decide (t.trade_type = some "Buy")).length
  let buys30d := (trades30d.filter fun t => decide (t.trade_type = some "Buy")).length
  ⟨trades7d.length,
    trades30d.length,
    if trades7d.length > 0 then (buys7d : ℚ) / (trades7d.length : ℚ) else 0,
    if trades30d.length > 0 then (buys30d : ℚ) / (trades30d.length : ℚ) else 0,
    signalsResponse.signals.length,
    if signalsResponse.signals.length > 0 then
      (signalsResponse.signals.foldl (fun sum s => sum + s.score) 0) /
        (signalsResponse.signals.length : ℚ)
    else 0⟩

/-- `loadDashboardData` (dashboard/page.tsx): set loading, clear the
error, await the `Promise.all` batch of the three requests
(`getTopSignals({window_days: 30, limit: 10})`, `getTradeStats()`,
`getTrades({limit: 100})`); on success commit signals, stats and the
derived dashboard stats and clear the error; if the batch rejects, the
catch block leaves all fetched-data state untouched and records the
error message; `finally` clears the loading flag. -/
def loadDashboardData (parse : String → Option ℤ) (now : ℤ) (env : ApiEnv)
    (st : DashState) : DashState :=
  match promiseAll3 (env.getTopSignals ⟨some 30, some 10⟩)
      (env.getTradeStats ()) (env.getTrades dashboardTradesQuery) with
  | .error _ =>
      { st with
          error := some "Failed to load dashboard data. Please try again.",
          loading := false }
  | .ok (signalsResponse, statsResponse, recentTrades) =>
      ⟨signalsResponse.signals,
        some statsResponse,
        some (computeDashboardStats parse now signalsResponse recentTrades),
        false,
        none⟩

/-! ## Helper lemmas -/

/-- Evaluation lemma for `jsToFixed` on a finite value with known
numerator and denominator. -/
theorem jsToFixed_fin (d : Nat) (q : ℚ) (n : ℤ) (m : Nat)
    (h1 : q.num = n) (h2 : q.den = m) :
    jsToFixed d (.fin q) =
      (if n < 0 then "-" else "") ++
      (if d = 0 then Nat.repr ((2 * n.natAbs * 10 ^ d + m) / (2 * m))
       else Nat.repr ((2 * n.natAbs * 10 ^ d + m) / (2 * m) / 10 ^ d) ++ "." ++
            padZeros d (Nat.repr ((2 * n.natAbs * 10 ^ d + m) / (2 * m) % 10 ^ d))) := by
  subst h1
  subst h2
  simp only [jsToFixed]
  by_cases hd : d = 0 <;> simp [hd, String.append_assoc]

/-- Pre-removing the trades with unparsable dates does not change a
window filter: a trade whose date fails to parse already fails
`tradeInWindow`. -/
theorem filter_window_of_good (parse : String → Option ℤ) (now : ℤ)
    (days : ℚ) (l : List Trade) :
    (l.filter fun u => (parse (jsOrString u.trade_date "")).isSome).filter
        (tradeInWindow parse now days) =
      l.filter (tradeInWindow parse now days) := by
  induction l with
  | nil => rfl
  | cons a l ih =>
      cases hp : parse (jsOrString a.trade_date "") with
      | none =>
          have hw : tradeInWindow parse now days a = false := by
            simp [tradeInWindow, hp]
          simp [List.filter_cons, hp, hw, ih]
      | some tt => simp [List.filter_cons, hp, ih]

/-! ## Claim theorems -/

/-- C1 (counterexample): the claim that `scoreSignals` fails locally,
before any network request, on a request with neither `ticker` nor
`filings` is false: the empty request is still POSTed to
`/signals/score` (the action trace is non-empty — no local validation
exists). -/
theorem scoreSignals_no_local_validation_counterexample :
    (SignalRequest.mk none none none).ticker = none ∧
      (SignalRequest.mk none none none).filings = none ∧
      scoreSignalsActions (SignalRequest.mk none none none) =
        [ClientAction.post "/signals/score" (SignalRequest.mk none none none)] ∧
      scoreSignalsActions (SignalRequest.mk none none none) ≠ [] := by
  refine ⟨rfl, rfl, rfl, ?_⟩
  simp [scoreSignalsActions]

/-- C1 (amended): `scoreSignals` performs no local validation at all:
every request — the one with neither `ticker` nor `filings` included —
is sent to the network as a single POST to `/signals/score`, and the
result is whatever the network returns. -/
theorem scoreSignals_posts_unconditionally :
    ∀ request : SignalRequest,
      scoreSignalsActions request =
        [ClientAction.post "/signals/score" request] ∧
      ∀ net : String → SignalRequest → Except JSRuntimeError SignalResponse,
        scoreSignals net request = net "/signals/score" request :=
  fun _ => ⟨rfl, fun _ => rfl⟩

/-- C2 (counterexample): a failing API operation does NOT surface a
normalized `APIError` to its caller: the response interceptor re-rejects
the raw transport error unchanged, and no operation applies
`handleAPIError` (it is exported but never called), so a network failure
of `getTrades` surfaces the raw axios error. -/
theorem apiOperation_raw_error_counterexample :
    @apiOperation TradeResponse
        (.error (JSRuntimeError.axios "Network Error" none)) =
      .error (JSRuntimeError.axios "Network Error" none) ∧
    ∀ a : APIError,
      JSRuntimeError.axios "Network Error" none ≠ JSRuntimeError.apiErr a := by
  exact ⟨rfl, fun a h => by cases h⟩

/-- C2 (amended): the exported normalizer `handleAPIError` does map every
error to the single `APIError` shape — message preferring the server
`detail` field and falling back to the transport message, optional
status, optional raw payload — but the API operations themselves
propagate the raw transport error; the normalized shape is produced only
when a caller explicitly invokes `handleAPIError`. -/
theorem handleAPIError_normalizes :
    (∀ e : JSRuntimeError,
      (handleAPIError e).name = "APIError" ∧
      (handleAPIError e).message =
        (match e with
          | .axios m r =>
              jsOrString (Option.bind (Option.bind r AxiosResp.data)
                ResponseData.detail) m
          | .apiErr a => a.message
          | .plain _ m => m) ∧
      (handleAPIError e).status =
        (match e with
          | .axios _ r => Option.map AxiosResp.status r
          | _ => none) ∧
      (handleAPIError e).data =
        (match e with
          | .axios _ r => Option.bind r AxiosResp.data
          | _ => none)) ∧
    handleAPIError (.axios "Request failed with status code 422"
        (some ⟨422, some ⟨some "Invalid ticker"⟩⟩)) =
      ⟨"APIError", "Invalid ticker", some 422, some ⟨some "Invalid ticker"⟩⟩ ∧
    handleAPIError (.axios "Network Error" none) =
      ⟨"APIError", "Network Error", none, none⟩ ∧
    handleAPIError (.axios "Request failed with status code 500"
        (some ⟨500, some ⟨some ""⟩⟩)) =
      ⟨"APIError", "Request failed with status code 500", some 500,
        some ⟨some ""⟩⟩ := by
  refine ⟨fun e => ?_, by decide, by decide, by decide⟩
  cases e <;> simp [handleAPIError]

/-- C3 (counterexample): the claim's concrete value
`formatCurrency(-3000000000) = "-$3.0B"` is false on the code: the
template puts the dollar sign first and the sign of the number after it,
so the result is `"$-3.0B"`. -/
theorem formatCurrency_neg_billion_counterexample :
    formatCurrency (some (JSNum.fin (-3000000000))) = "$-3.0B" ∧
      formatCurrency (some (JSNum.fin (-3000000000))) ≠ "-$3.0B" := by
  constructor
  · norm_num [formatCurrency, jsGe, jsAbs, jsDivC]
    decide
  · norm_num [formatCurrency, jsGe, jsAbs, jsDivC]
    decide

/-- C3 (amended): `formatCurrency` buckets every finite value by absolute
magnitude (≥1e9 → `toFixed(1)` of the billions value plus "B"; ≥1e6 →
millions plus "M"; ≥1e3 → `toFixed(0)` of the thousands value plus "K";
else the integer-rounded value), always placing the "$" before the signed
number, so a negative value renders as "$-…", not "-$…". Concretely:
999 → "$999", 1500 → "$2K", 2500000 → "$2.5M",
-3000000000 → "$-3.0B". -/
theorem formatCurrency_buckets :
    (∀ v : ℚ, formatCurrency (some (JSNum.fin v)) =
      if 1000000000 ≤ |v| then
        "$" ++ jsToFixed 1 (JSNum.fin (v / 1000000000)) ++ "B"
      else if 1000000 ≤ |v| then
        "$" ++ jsToFixed 1 (JSNum.fin (v / 1000000)) ++ "M"
      else if 1000 ≤ |v| then
        "$" ++ jsToFixed 0 (JSNum.fin (v / 1000)) ++ "K"
      else "$" ++ jsToFixed 0 (JSNum.fin v)) ∧
    formatCurrency (some (JSNum.fin 999)) = "$999" ∧
    formatCurrency (some (JSNum.fin 1500)) = "$2K" ∧
    formatCurrency (some (JSNum.fin 2500000)) = "$2.5M" ∧
    formatCurrency (some (JSNum.fin (-3000000000))) = "$-3.0B" := by
  refine ⟨fun v => ?_, ?_, ?_, ?_, ?_⟩
  · simp only [formatCurrency, jsGe, jsAbs, jsDivC, decide_eq_true_eq]
  · norm_num [formatCurrency, jsGe, jsAbs, jsDivC]
    decide
  · norm_num [formatCurrency, jsGe, jsAbs, jsDivC]
    rw [jsToFixed_fin 0 (3/2) 3 2 (by norm_num) (by norm_num)]
    decide
  · norm_num [formatCurrency, jsGe, jsAbs, jsDivC]
    rw [jsToFixed_fin 1 (5/2) 5 2 (by norm_num) (by norm_num)]
    decide
  · norm_num [formatCurrency, jsGe, jsAbs, jsDivC]
    decide

/-- C4 (counterexample): the claim that every non-finite input yields the
sentinel `"N/A"` is false for the infinities: the guard only checks
`isNaN`, so `formatCurrency(Infinity)` falls into the billions bucket and
returns `"$InfinityB"`. -/
theorem formatCurrency_infinity_counterexample :
    formatCurrency (some JSNum.inf) = "$InfinityB" ∧
      formatCurrency (some JSNum.inf) ≠ "N/A" := by
  exact ⟨by decide, by decide⟩

/-- C4 (amended): the formatters return the sentinel `"N/A"` exactly for
`null`/`undefined`/`NaN` numeric inputs and for absent or empty date
strings; they never throw (they are total functions). The infinities are
NOT mapped to the sentinel: `formatCurrency(Infinity) = "$InfinityB"`,
`formatPercent(Infinity) = "Infinity%"`, and `formatNumber` hands the
infinities to the host locale rendering; a non-empty date string that
fails to parse yields `"Invalid Date"`, not the sentinel. -/
theorem formatters_sentinel_amended :
    formatCurrency none = "N/A" ∧
    formatCurrency (some JSNum.nan) = "N/A" ∧
    formatPercent none = "N/A" ∧
    formatPercent (some JSNum.nan) = "N/A" ∧
    (∀ locale : JSNum → String,
      formatNumber locale none = "N/A" ∧
      formatNumber locale (some JSNum.nan) = "N/A" ∧
      formatNumber locale (some JSNum.inf) = locale JSNum.inf) ∧
    formatCurrency (some JSNum.inf) = "$InfinityB" ∧
    formatCurrency (some JSNum.ninf) = "$-InfinityB" ∧
    formatPercent (some JSNum.inf) = "Infinity%" ∧
    (∀ (parse : String → Option ℤ) (render : ℤ → String),
      formatDate parse render none = "N/A" ∧
      formatDate parse render (some "") = "N/A" ∧
      ∀ s, s ≠ "" → parse s = none →
        formatDate parse render (some s) = "Invalid Date") := by
  refine ⟨by decide, by decide, by decide, by decide,
    fun locale => ⟨rfl, rfl, rfl⟩, by decide, by decide, by decide,
    fun parse render => ⟨rfl, rfl, fun s hs hp => ?_⟩⟩
  simp [formatDate, hs, hp]

/-- C4 (witness): the amended theorem applied at a concrete unparsable
date string. -/
theorem formatters_sentinel_amended_witness :
    ("not-a-date" : String) ≠ "" ∧
      formatDate (fun _ => none) (fun _ => "") (some "not-a-date") =
        "Invalid Date" :=
  ⟨by decide,
    (formatters_sentinel_amended.2.2.2.2.2.2.2.2 (fun _ => none)
        (fun _ => "")).2.2 "not-a-date" (by decide) rfl⟩

/-- C5: from no prior sort state, with the table-level flag and both
columns' flags sortable, clicking column A emits (A, ascending), a second
consecutive click on A emits (A, descending), and a subsequent click on a
different column B emits (B, ascending), abandoning A's state. (A column
key is required to be non-empty; the empty string is the "no active
column" sentinel of the initial state.) -/
theorem table_sort_toggle (A B : TableColumn)
    (hA : A.sortable = some true) (hB : B.sortable = some true)
    (hAkey : A.key ≠ "") (hBA : B.key ≠ A.key) :
    handleSort true A initialSortState =
      (⟨A.key, SortDirection.asc⟩, some (A.key, SortDirection.asc)) ∧
    handleSort true A ⟨A.key, SortDirection.asc⟩ =
      (⟨A.key, SortDirection.desc⟩, some (A.key, SortDirection.desc)) ∧
    handleSort true B ⟨A.key, SortDirection.desc⟩ =
      (⟨B.key, SortDirection.asc⟩, some (B.key, SortDirection.asc)) := by
  refine ⟨?_, ?_, ?_⟩
  · simp [handleSort, initialSortState, jsTruthyOptBool, hA, Ne.symm hAkey]
  · simp [handleSort, jsTruthyOptBool, hA]
  · simp [handleSort, jsTruthyOptBool, hB]

/-- C5 (witness): the toggle sequence at two concrete sortable columns. -/
theorem table_sort_toggle_witness :
    handleSort true ⟨"price", "Price", some true, none⟩ initialSortState =
      (⟨"price", SortDirection.asc⟩, some ("price", SortDirection.asc)) ∧
    handleSort true ⟨"price", "Price", some true, none⟩
        ⟨"price", SortDirection.asc⟩ =
      (⟨"price", SortDirection.desc⟩, some ("price", SortDirection.desc)) ∧
    handleSort true ⟨"value", "Value", some true, none⟩
        ⟨"price", SortDirection.desc⟩ =
      (⟨"value", SortDirection.asc⟩, some ("value", SortDirection.asc)) :=
  table_sort_toggle ⟨"price", "Price", some true, none⟩
    ⟨"value", "Value", some true, none⟩ rfl rfl (by decide) (by decide)

/-- C6: when the table-level flag is false, or the clicked column's own
flag is false or absent, `handleSort` emits no event and leaves the sort
state unchanged. -/
theorem table_sort_noop (sortable : Bool) (col : TableColumn)
    (st : SortState)
    (h : sortable = false ∨ col.sortable = none ∨ col.sortable = some false) :
    handleSort sortable col st = (st, none) := by
  rcases h with h | h | h <;> simp [handleSort, jsTruthyOptBool, h]

/-- C6 (witness): a click on a column without a sortable flag is a
no-op. -/
theorem table_sort_noop_witness :
    handleSort true ⟨"price", "Price", none, none⟩ initialSortState =
      (initialSortState, none) :=
  table_sort_noop true ⟨"price", "Price", none, none⟩ initialSortState
    (Or.inr (Or.inl rfl))

/-- C7: evaluation of the pagination window at the failing input
`currentPage = 9, totalPages = 10`: the per-index clamp produces
`[7, 8, 9, 10, 10]` — page 10 duplicated (duplicate React keys) and
page 6 missing — instead of the specified last window
`totalPages-4 .. totalPages = [6, 7, 8, 9, 10]`; at
`currentPage = 10` the window `[8, 9, 10, 9, 10]` is not even
monotone. -/
theorem paginationWindow_duplicates_near_end :
    paginationWindow 9 10 = [7, 8, 9, 10, 10] ∧
      ¬ (paginationWindow 9 10).Nodup ∧
      paginationWindow 10 10 = [8, 9, 10, 9, 10] ∧
      paginationWindow 8 10 = [6, 7, 8, 9, 10] ∧
      paginationWindow 1 10 = [1, 2, 3, 4, 5] ∧
      paginationWindow 2 3 = [1, 2, 3] := by
  refine ⟨by decide, by decide, by decide, by decide, by decide, by decide⟩

/-- C8: the dashboard batch is fail-fast: whenever any one of the three
requests (`getTopSignals({window_days: 30, limit: 10})`,
`getTradeStats()`, `getTrades({limit: 100})`) rejects, no fetched data is
committed — signals, stats and derived dashboard stats keep their
previous values — and the controller transitions to the error state with
loading cleared. -/
theorem dashboard_fail_fast (parse : String → Option ℤ) (now : ℤ)
    (env : ApiEnv) (st : DashState)
    (h : (∃ e, env.getTopSignals ⟨some 30, some 10⟩ = .error e) ∨
         (∃ e, env.getTradeStats () = .error e) ∨
         (∃ e, env.getTrades dashboardTradesQuery = .error e)) :
    (loadDashboardData parse now env st).signals = st.signals ∧
    (loadDashboardData parse now env st).stats = st.stats ∧
    (loadDashboardData parse now env st).dashboardStats = st.dashboardStats ∧
    (loadDashboardData parse now env st).error =
      some "Failed to load dashboard data. Please try again." ∧
    (loadDashboardData parse now env st).loading = false := by
  cases h1 : env.getTopSignals ⟨some 30, some 10⟩ <;>
    cases h2 : env.getTradeStats () <;>
    cases h3 : env.getTrades dashboardTradesQuery <;>
    simp_all [loadDashboardData, promiseAll3]

/-- The spec's end-to-end scenario: `getTradeStats` rejects while the
other two requests resolve. -/
def apiEnvFailingStats : ApiEnv :=
  ⟨fun _ => .ok ⟨"2024-01-01T00:00:00Z", 30, [], 0⟩,
    fun _ => .error (JSRuntimeError.axios "Network Error" none),
    fun _ => .ok ⟨[], 0, 100, 0⟩⟩

/-- The dashboard's initial state. -/
def dashInitialState : DashState :=
  ⟨[], none, none, true, none⟩

/-- C8 (witness): the fail-fast theorem applied to the concrete scenario
in which only `getTradeStats` rejects. -/
theorem dashboard_fail_fast_witness :
    (loadDashboardData (fun _ => none) 0 apiEnvFailingStats
        dashInitialState).signals = dashInitialState.signals ∧
    (loadDashboardData (fun _ => none) 0 apiEnvFailingStats
        dashInitialState).stats = dashInitialState.stats ∧
    (loadDashboardData (fun _ => none) 0 apiEnvFailingStats
        dashInitialState).dashboardStats = dashInitialState.dashboardStats ∧
    (loadDashboardData (fun _ => none) 0 apiEnvFailingStats
        dashInitialState).error =
      some "Failed to load dashboard data. Please try again." ∧
    (loadDashboardData (fun _ => none) 0 apiEnvFailingStats
        dashInitialState).loading = false :=
  dashboard_fail_fast (fun _ => none) 0 apiEnvFailingStats dashInitialState
    (Or.inr (Or.inl ⟨JSRuntimeError.axios "Network Error" none, rfl⟩))

/-- C9 (counterexample): with `score = 0` the badge text is NOT just the
upper-cased tier: `0` is falsy, so `{score && ...}` evaluates to the
number `0`, which React renders as the text "0" — the badge reads
"HIGH0". -/
theorem signalBadge_zero_score_counterexample :
    signalBadgeText "high" (some (JSNum.fin 0)) = "HIGH0" ∧
      signalBadgeText "high" (some (JSNum.fin 0)) ≠ "HIGH" := by
  exact ⟨by decide, by decide⟩

/-- C9 (amended): with `score` absent the badge text is exactly the
upper-cased confidence tier; with `score = 0` it is the tier followed by
the rendered number "0" (React renders a falsy number); the " (N%)"
suffix appears exactly when the score is a truthy number. -/
theorem signalBadge_text_amended :
    (∀ confidence : String,
      signalBadgeText confidence none = jsToUpperCase confidence) ∧
    (∀ confidence : String,
      signalBadgeText confidence (some (JSNum.fin 0)) =
        jsToUpperCase confidence ++ "0") ∧
    (∀ (confidence : String) (s : JSNum), jsTruthyNum s = true →
      signalBadgeText confidence (some s) =
        jsToUpperCase confidence ++ " (" ++
          jsNumToString (jsMathRound (jsMulC s 100)) ++ "%)") ∧
    signalBadgeText "high" (some (JSNum.fin (17/20))) = "HIGH (85%)" := by
  refine ⟨fun c => by simp [signalBadgeText], fun c => ?_, fun c s hs => ?_, ?_⟩
  · simp only [signalBadgeText, jsTruthyNum, jsNumToString]
    rfl
  · simp [signalBadgeText, hs, String.append_assoc]
  · have hmul : (17 / 20 : ℚ) * 100 = 85 := by norm_num
    have ht : jsTruthyNum (JSNum.fin (17/20)) = true := by
      simp only [jsTruthyNum, decide_eq_true_eq]
      norm_num
    simp only [signalBadgeText, ht, if_true, jsMulC, hmul]
    decide

/-- C9 (witness): the truthy-score branch of the amended theorem applied
at a concrete score of 1. -/
theorem signalBadge_text_amended_witness :
    jsTruthyNum (JSNum.fin 1) = true ∧
      signalBadgeText "low" (some (JSNum.fin 1)) =
        jsToUpperCase "low" ++ " (" ++
          jsNumToString (jsMathRound (jsMulC (JSNum.fin 1) 100)) ++ "%)" :=
  ⟨by decide, signalBadge_text_amended.2.2.1 "low" (JSNum.fin 1) (by decide)⟩

/-- C10: a trade whose `trade_date` is absent or does not parse is
excluded from both the 7-day and the 30-day window (the NaN day
difference fails both comparisons), and therefore contributes to none of
the derived dashboard statistics: dropping all such trades from the
response leaves `computeDashboardStats` unchanged. -/
theorem dashboard_invalid_dates_excluded (parse : String → Option ℤ)
    (now : ℤ) (hparse : parse "" = none) (t : Trade)
    (hbad : t.trade_date = none ∨ parse (jsOrString t.trade_date "") = none) :
    tradeInWindow parse now 7 t = false ∧
    tradeInWindow parse now 30 t = false ∧
    ∀ (signalsResponse : TopSignalsResponse) (recentTrades : TradeResponse),
      computeDashboardStats parse now signalsResponse recentTrades =
        computeDashboardStats parse now signalsResponse
          ⟨recentTrades.trades.filter
              (fun u => (parse (jsOrString u.trade_date "")).isSome),
            recentTrades.total, recentTrades.limit, recentTrades.offset⟩ := by
  have hbad' : parse (jsOrString t.trade_date "") = none := by
    rcases hbad with h | h
    · simpa [jsOrString, h] using hparse
    · exact h
  refine ⟨by simp [tradeInWindow, hbad'], by simp [tradeInWindow, hbad'], ?_⟩
  intro signalsResponse recentTrades
  simp only [computeDashboardStats]
  rw [filter_window_of_good parse now 7, filter_window_of_good parse now 30]

/-- A trade carrying no date at all. -/
def tradeNoDate : Trade :=
  ⟨1, none, none, none, none, none, none, none, none, none, none, none,
    none, none, none, none, none, none, none⟩

/-- C10 (witness): the exclusion theorem applied to a concrete dateless
trade under a parser that accepts nothing. -/
theorem dashboard_invalid_dates_excluded_witness :
    tradeInWindow (fun _ => none) 0 7 tradeNoDate = false ∧
      tradeInWindow (fun _ => none) 0 30 tradeNoDate = false ∧
      computeDashboardStats (fun _ => none) 0 ⟨"", 30, [], 0⟩
          ⟨[tradeNoDate], 1, 100, 0⟩ =
        computeDashboardStats (fun _ => none) 0 ⟨"", 30, [], 0⟩
          ⟨[], 1, 100, 0⟩ :=
  ⟨(dashboard_invalid_dates_excluded (fun _ => none) 0 rfl tradeNoDate
      (Or.inl rfl)).1,
    (dashboard_invalid_dates_excluded (fun _ => none) 0 rfl tradeNoDate
      (Or.inl rfl)).2.1,
    (dashboard_invalid_dates_excluded (fun _ => none) 0 rfl tradeNoDate
      (Or.inl rfl)).2.2 ⟨"", 30, [], 0⟩ ⟨[tradeNoDate], 1, 100, 0⟩⟩

end InsideX
